import Mathlib

/-!
# psiphon/tunnel.go: protocol selection, establishment, port forwards and the tunnel monitor

A shallow embedding of `src/psiphon/tunnel.go`.

* Go strings are Lean strings (the strings of a configuration and of a server entry are
  decoded from JSON, hence valid UTF-8, and the suffix `-OSSH` is ASCII, so trimming it by
  bytes and by characters agree); byte slices are lists of naturals.
* Go `int` values are integers. The only arithmetic in the file is the failure total of
  `operateTunnel`, which grows by one per report and is compared with the threshold, itself
  the capacity of an allocated channel: it stays far below the word size.
* A Go `error` is `Option GoError`, `none` being `nil`.
* Calls that leave the file (network dials, the SSH library, the API session, notices,
  timers) are recorded, in program order, in a list of `Event`s; what such a call returns
  is read from an environment record, so every theorem holds for every behaviour of the
  collaborators.
* The `select` of `operateTunnel` is driven by the list of cases that became ready.
-/

namespace Psiphon

/-! ## Errors -/

/-- Go error values built in this file. -/
inductive GoError where
  /-- The sentinel `io.EOF`. -/
  | eof : GoError
  /-- The value of `errors.New(msg)`, or of `fmt.Errorf(msg)` without arguments. -/
  | new (msg : String) : GoError
  /-- The value of `fmt.Errorf(format, args...)` whose arguments are strings. -/
  | errorf (format : String) (args : List String) : GoError
  /-- The value of `fmt.Errorf(format, args..., cause)` whose last argument is the
  non-nil error `cause`. -/
  | errorfWrap (format : String) (args : List String) (cause : GoError) : GoError
  /-- The value of `ContextError(inner)` for a non-nil `inner`. -/
  | context (inner : GoError) : GoError
  /-- An error produced by a collaborator outside this file. -/
  | external (code : Nat) : GoError
  deriving DecidableEq, Repr

/-- Modelled from the spec: `ContextError` is declared outside `tunnel.go`. The error kinds
of the specification pass through it unchanged, so it keeps `nil` as `nil` and tags a
non-nil error. -/
def ContextError : Option GoError → Option GoError
  | none => none
  | some e => some (GoError.context e)

/-! ## Strings and capability lists -/

/-- Go `strings.HasSuffix`: `len(s) >= len(suffix) && s[len(s)-len(suffix):] == suffix`. -/
def HasSuffix (s suffix : String) : Bool :=
  decide (suffix.data.length ≤ s.data.length) &&
    decide (s.data.drop (s.data.length - suffix.data.length) = suffix.data)

/-- Go `strings.TrimSuffix`: `s` without the trailing `suffix`, or `s` itself. -/
def TrimSuffix (s suffix : String) : String :=
  if HasSuffix s suffix then
    String.mk (s.data.take (s.data.length - suffix.data.length))
  else
    s

/-- Modelled from the spec: `Contains` is declared outside `tunnel.go`; it reports whether
the capability `target` is present in `list`. -/
def Contains : List String → String → Bool
  | [], _ => false
  | listItem :: rest, target => if listItem = target then true else Contains rest target

def TUNNEL_PROTOCOL_SSH : String := "SSH"
def TUNNEL_PROTOCOL_OBFUSCATED_SSH : String := "OSSH"
def TUNNEL_PROTOCOL_UNFRONTED_MEEK : String := "UNFRONTED-MEEK-OSSH"
def TUNNEL_PROTOCOL_FRONTED_MEEK : String := "FRONTED-MEEK-OSSH"

/-- The supported tunnel protocols, in default preference order. -/
def SupportedTunnelProtocols : List String :=
  [TUNNEL_PROTOCOL_FRONTED_MEEK,
   TUNNEL_PROTOCOL_UNFRONTED_MEEK,
   TUNNEL_PROTOCOL_OBFUSCATED_SSH,
   TUNNEL_PROTOCOL_SSH]

/-! ## Configuration and server entries -/

/-- The fields of `Config` that `tunnel.go` reads. -/
structure Config where
  TunnelProtocol : String
  DisableApi : Bool
  PortForwardFailureThreshold : Int
  UpstreamHttpProxyAddress : String
  deriving DecidableEq, Repr

/-- The fields of `ServerEntry` that `tunnel.go` reads. -/
structure ServerEntry where
  IpAddress : String
  Region : String
  Capabilities : List String
  SshPort : Int
  SshObfuscatedPort : Int
  SshObfuscatedKey : String
  SshHostKey : String
  SshUsername : String
  SshPassword : String
  MeekFrontingDomain : String
  deriving DecidableEq, Repr

/-! ## selectProtocol -/

/-- The `for ... range SupportedTunnelProtocols` loop of `selectProtocol`: `selectedProtocol`
is set to the first protocol whose required capability is present, then the loop breaks. -/
def selectProtocolLoop (capabilities : List String) :
    List String → String → String
  | [], selectedProtocol => selectedProtocol
  | protocol :: rest, selectedProtocol =>
    let requiredCapability := TrimSuffix protocol "-OSSH"
    if Contains capabilities requiredCapability then
      protocol
    else
      selectProtocolLoop capabilities rest selectedProtocol

/-- The helper `selectProtocol`, which picks the tunnel protocol. -/
def selectProtocol (config : Config) (serverEntry : ServerEntry) :
    String × Option GoError :=
  if config.TunnelProtocol ≠ "" then
    let requiredCapability := TrimSuffix config.TunnelProtocol "-OSSH"
    if !Contains serverEntry.Capabilities requiredCapability then
      ("", ContextError (some (GoError.new "server does not have required capability")))
    else
      (config.TunnelProtocol, none)
  else
    let selectedProtocol := selectProtocolLoop serverEntry.Capabilities SupportedTunnelProtocols ""
    if selectedProtocol = "" then
      ("", ContextError (some (GoError.new "server does not have any supported capabilities")))
    else
      (selectedProtocol, none)

/-! ## Effects -/

/-- An argument of a notice. -/
inductive NoticeArg where
  | str (s : String) : NoticeArg
  | int (i : Int) : NoticeArg
  | err (e : GoError) : NoticeArg
  deriving DecidableEq, Repr

/-- Calls made by `tunnel.go` on its collaborators, recorded in program order. The
transport is the `conn` built by `dialSsh` and owned by the tunnel. -/
inductive Event where
  | NoticeInfo (format : String) (args : List NoticeArg) : Event
  | NoticeAlert (format : String) (args : List NoticeArg) : Event
  | NoticeConnectingServer (ipAddress region protocol frontingDomain : String) : Event
  /-- The call `DialMeek(serverEntry, sessionId, useFronting, dialConfig)`. -/
  | DialMeek (useFronting : Bool) (upstreamHttpProxyAddress : String) : Event
  /-- The call `DialTCP(fmt.Sprintf("%s:%d", ipAddress, port), dialConfig)`. -/
  | DialTCP (ipAddress : String) (port : Int) (upstreamHttpProxyAddress : String) : Event
  /-- The call `conn.SetClosedSignal(closedSignal)`. -/
  | SetClosedSignal : Event
  | NewObfuscatedSshConn (obfuscatedKey : String) : Event
  /-- The call `ssh.NewClientConn(sshConn, sshAddress, sshClientConfig)`: the SSH handshake. -/
  | NewClientConn : Event
  /-- A call `Close()` on the transport written in `tunnel.go`: `cleanupConn.Close()`,
  `conn.Close()` or `tunnel.conn.Close()`. What a collaborator does to the transport inside
  one of its own calls is not recorded. -/
  | connClose : Event
  | NewSession (sessionId : String) : Event
  /-- The call `pendingConns.Remove(conn)`. -/
  | pendingConnsRemove : Event
  | PromoteServerEntry (ipAddress : String) : Event
  /-- The statements `operateWaitGroup.Add(1); go tunnel.operateTunnel(...)`. -/
  | goOperateTunnel : Event
  /-- The statement `close(tunnel.shutdownOperateBroadcast)`. -/
  | closeShutdownOperateBroadcast : Event
  /-- The call `tunnel.operateWaitGroup.Wait()`. -/
  | operateWaitGroupWait : Event
  /-- The deferred call `tunnel.operateWaitGroup.Done()`. -/
  | operateWaitGroupDone : Event
  /-- The call `tunnel.sshClient.Dial("tcp", remoteAddr)`. -/
  | sshClientDial (remoteAddr : String) : Event
  /-- Entry into `sendStats(tunnel)`. -/
  | sendStats : Event
  | GetForServer (ipAddress : String) : Event
  | DoStatusRequest : Event
  | PutBack (ipAddress : String) : Event
  | statsTimerNew : Event
  | statsTimerReset : Event
  | statsTimerStop : Event
  | sshKeepAliveTimerNew : Event
  | sshKeepAliveTimerReset : Event
  | sshKeepAliveTimerStop : Event
  /-- The call `tunnel.sshClient.SendRequest("keepalive@openssh.com", true, padding)`. -/
  | SendRequest : Event
  /-- The call `tunnelOwner.SignalTunnelFailure(tunnel)`. -/
  | SignalTunnelFailure : Event
  deriving DecidableEq, Repr

/-- How a function ends: it returns a value, or it panics. -/
inductive Outcome (α : Type) where
  | returned (value : α) : Outcome α
  | panicked (reason : String) : Outcome α
  deriving DecidableEq, Repr

/-! ## Channels -/

/-- A buffered `chan int`: the queued values, oldest first, and the capacity given to `make`. -/
structure Chan where
  buffer : List Int
  capacity : Nat
  deriving DecidableEq, Repr

/-- The statement `make(chan int, size)`, which panics on a negative size. -/
def makeChan (size : Int) : Option Chan :=
  if size < 0 then none else some { buffer := [], capacity := size.toNat }

/-- The statement `select { case ch <- v: default: }`: the value is queued when the buffer
has room and dropped otherwise; the sender never blocks. -/
def Chan.trySend (ch : Chan) (v : Int) : Chan :=
  if ch.buffer.length < ch.capacity then
    { ch with buffer := ch.buffer ++ [v] }
  else
    ch

/-! ## The tunnel -/

/-- The part of an API `Session` that `tunnel.go` reads. -/
structure Session where
  StatsServerID : String
  StatsRegexps : List String
  deriving DecidableEq, Repr

/-- The state of a `Tunnel`. The transport, the SSH client, the mutex, the wait group and
the two signal channels are reached through `Event`s; `sshClient` and `conn` are never nil
in a tunnel built by `EstablishTunnel`. -/
structure Tunnel where
  isClosed : Bool
  serverEntry : ServerEntry
  session : Option Session
  protocol : String
  portForwardFailures : Chan
  portForwardFailureTotal : Int
  deriving DecidableEq, Repr

/-! ## dialSsh -/

/-- The fields of `ssh.ClientConfig` set by `dialSsh`: the user, the password of the single
`ssh.Password` method, and the host key callback. The callback is `CheckHostKey` of an
`ssh.CertChecker` whose only field is the closure `HostKeyFallback`, the check this file
installs; it is given the wire encoding `publicKey.Marshal()` of the key the server
presents. What `CheckHostKey` does with a certificate belongs to the SSH library. -/
structure ClientConfig where
  User : String
  Password : String
  HostKeyFallback : List Nat → Option GoError

/-- What the collaborators of `dialSsh` and `EstablishTunnel` return when they are called. -/
structure EstablishEnv where
  /-- The error of `DialMeek`. -/
  DialMeek : Option GoError
  /-- The error of `DialTCP`. -/
  DialTCP : Option GoError
  /-- The result of `conn.SetClosedSignal`; `false` when the conn is already closed. -/
  SetClosedSignal : Bool
  /-- The error of `NewObfuscatedSshConn`. -/
  NewObfuscatedSshConn : Option GoError
  /-- The function `base64.StdEncoding.DecodeString`. -/
  DecodeString : String → Except GoError (List Nat)
  /-- The function `json.Marshal` on the payload with fields `SessionId` and `SshPassword`. -/
  Marshal : String → String → Except GoError String
  /-- The error of `ssh.NewClientConn`, which runs the SSH handshake with the given
  configuration. -/
  NewClientConn : ClientConfig → Option GoError
  /-- The result of `NewSession`. -/
  NewSession : Except GoError Session

/-- The `switch selectedProtocol` of `dialSsh`: the values of `port`, `useMeek`,
`useFronting` and `useObfuscatedSsh`. -/
def protocolLayers (serverEntry : ServerEntry) (selectedProtocol : String) :
    Int × Bool × Bool × Bool :=
  if selectedProtocol = TUNNEL_PROTOCOL_FRONTED_MEEK then
    (0, true, true, true)
  else if selectedProtocol = TUNNEL_PROTOCOL_UNFRONTED_MEEK then
    (serverEntry.SshObfuscatedPort, true, false, true)
  else if selectedProtocol = TUNNEL_PROTOCOL_OBFUSCATED_SSH then
    (serverEntry.SshObfuscatedPort, false, false, true)
  else if selectedProtocol = TUNNEL_PROTOCOL_SSH then
    (serverEntry.SshPort, false, false, false)
  else
    (0, false, false, false)

/-- The closure `HostKeyFallback` installed by `dialSsh`: `bytes.Equal` of the expected key
and of `publicKey.Marshal()`. -/
def HostKeyFallback (expectedPublicKey publicKeyMarshal : List Nat) : Option GoError :=
  if !decide (expectedPublicKey = publicKeyMarshal) then
    ContextError (some (GoError.new "unexpected host public key"))
  else
    none

/-- The value `sshClientConfig` built by `dialSsh`: the user of the server entry, the
marshalled payload as the password, and the host key check against the expected key. -/
def sshClientConfig (serverEntry : ServerEntry) (expectedPublicKey : List Nat)
    (sshPasswordPayload : String) : ClientConfig :=
  { User := serverEntry.SshUsername
    Password := sshPasswordPayload
    HostKeyFallback := HostKeyFallback expectedPublicKey }

/-- The statements of `dialSsh` that follow the registration of its deferred cleanup, from
`closedSignal = make(chan struct{}, 1)` to the final `return`: the value of `err` at the
return and the calls made. -/
def dialSshLayers (env : EstablishEnv) (serverEntry : ServerEntry)
    (useObfuscatedSsh : Bool) (sessionId : String) : Option GoError × List Event :=
  if !env.SetClosedSignal then
    (ContextError (some (GoError.new "conn already closed")), [Event.SetClosedSignal])
  else
    let obfuscated : Option GoError × List Event :=
      if useObfuscatedSsh then
        (env.NewObfuscatedSshConn, [Event.NewObfuscatedSshConn serverEntry.SshObfuscatedKey])
      else
        (none, [])
    match obfuscated with
    | (some err, events) => (ContextError (some err), Event.SetClosedSignal :: events)
    | (none, events) =>
      match env.DecodeString serverEntry.SshHostKey with
      | Except.error err => (ContextError (some err), Event.SetClosedSignal :: events)
      | Except.ok expectedPublicKey =>
        match env.Marshal sessionId serverEntry.SshPassword with
        | Except.error err => (ContextError (some err), Event.SetClosedSignal :: events)
        | Except.ok sshPasswordPayload =>
          match env.NewClientConn
            (sshClientConfig serverEntry expectedPublicKey sshPasswordPayload) with
          | some err =>
            (ContextError (some err), Event.SetClosedSignal :: events ++ [Event.NewClientConn])
          | none => (none, Event.SetClosedSignal :: events ++ [Event.NewClientConn])

/-- The helper `dialSsh`, which builds the transport layers and establishes the SSH
connection. The result is the returned `err` and the calls made; `conn`, `closedSignal` and
`sshClient` are non-nil exactly when `err` is nil. -/
def dialSsh (env : EstablishEnv) (config : Config) (serverEntry : ServerEntry)
    (selectedProtocol sessionId : String) : Option GoError × List Event :=
  let (port, useMeek, useFronting, useObfuscatedSsh) := protocolLayers serverEntry selectedProtocol
  let frontingDomain := if useFronting then serverEntry.MeekFrontingDomain else ""
  let notice := Event.NoticeConnectingServer
    serverEntry.IpAddress serverEntry.Region selectedProtocol frontingDomain
  let dialed : Option GoError × Event :=
    if useMeek then
      (env.DialMeek, Event.DialMeek useFronting config.UpstreamHttpProxyAddress)
    else
      (env.DialTCP, Event.DialTCP serverEntry.IpAddress port config.UpstreamHttpProxyAddress)
  match dialed with
  | (some err, dial) => (ContextError (some err), [notice, dial])
  | (none, dial) =>
    let (err, events) := dialSshLayers env serverEntry useObfuscatedSsh sessionId
    -- the deferred cleanup: `if err != nil { cleanupConn.Close() }`
    let cleanup := if err ≠ none then [Event.connClose] else []
    (err, [notice, dial] ++ events ++ cleanup)

/-! ## EstablishTunnel -/

/-- The statements of `EstablishTunnel` that follow the registration of its deferred
cleanup: the returned pair, or a panic of `make`, and the calls made. -/
def establishTunnelSession (env : EstablishEnv) (config : Config) (sessionId : String)
    (serverEntry : ServerEntry) (selectedProtocol : String) :
    Outcome (Option Tunnel × Option GoError) × List Event :=
  match makeChan config.PortForwardFailureThreshold with
  | none => (Outcome.panicked "makechan: size out of range", [])
  | some portForwardFailures =>
    let tunnel : Tunnel :=
      { isClosed := false
        serverEntry := serverEntry
        session := none
        protocol := selectedProtocol
        portForwardFailures := portForwardFailures
        portForwardFailureTotal := 0 }
    let started (tunnel : Tunnel) : List Event :=
      [Event.pendingConnsRemove,
       Event.PromoteServerEntry tunnel.serverEntry.IpAddress,
       Event.goOperateTunnel]
    if !config.DisableApi then
      let events :=
        [Event.NoticeInfo "starting session for %s" [NoticeArg.str tunnel.serverEntry.IpAddress],
         Event.NewSession sessionId]
      match env.NewSession with
      | Except.error err =>
        (Outcome.returned
          (none, ContextError (some (GoError.errorfWrap "error starting session for %s: %s"
            [tunnel.serverEntry.IpAddress] err))), events)
      | Except.ok session =>
        let tunnel := { tunnel with session := some session }
        (Outcome.returned (some tunnel, none), events ++ started tunnel)
    else
      (Outcome.returned (some tunnel, none), started tunnel)

/-- The function `EstablishTunnel`: the returned `(tunnel, err)`, or a panic, and the calls
made, those of `dialSsh` included. -/
def EstablishTunnel (env : EstablishEnv) (config : Config) (sessionId : String)
    (serverEntry : ServerEntry) :
    Outcome (Option Tunnel × Option GoError) × List Event :=
  match selectProtocol config serverEntry with
  | (_, some err) => (Outcome.returned (none, ContextError (some err)), [])
  | (selectedProtocol, none) =>
    match dialSsh env config serverEntry selectedProtocol sessionId with
    | (some err, events) => (Outcome.returned (none, ContextError (some err)), events)
    | (none, events) =>
      let (outcome, later) :=
        establishTunnelSession env config sessionId serverEntry selectedProtocol
      -- the deferred cleanup: `if err != nil { conn.Close() }`; `err` is nil when `make`
      -- panics
      let cleanup :=
        match outcome with
        | Outcome.returned (_, some _) => [Event.connClose]
        | _ => []
      (outcome, events ++ later ++ cleanup)

/-! ## Close, Dial and SignalComponentFailure -/

/-- The method `Tunnel.Close`; the mutex makes its body atomic. -/
def Tunnel.Close (tunnel : Tunnel) : Tunnel × List Event :=
  let events :=
    if !tunnel.isClosed then
      [Event.closeShutdownOperateBroadcast, Event.operateWaitGroupWait, Event.connClose]
    else
      []
  ({ tunnel with isClosed := true }, events)

/-- The method `Tunnel.SignalComponentFailure`. -/
def Tunnel.SignalComponentFailure (tunnel : Tunnel) : Tunnel × List Event :=
  let (tunnel, events) := tunnel.Close
  (tunnel, Event.NoticeAlert "tunnel received component failure signal" [] :: events)

/-- A `TunneledConn`: the wrapped port forward connection and the optional peer connection,
both named by a handle. -/
structure TunneledConn where
  Conn : Nat
  downstreamConn : Option Nat
  deriving DecidableEq, Repr

/-- The `net.Conn` returned by `Tunnel.Dial`. -/
inductive NetConn where
  /-- The value `&TunneledConn{...}`. -/
  | tunneled (conn : TunneledConn) : NetConn
  /-- The value `transferstats.NewConn(conn, serverID, regexps)`. -/
  | stats (conn : NetConn) (serverID : String) (regexps : List String) : NetConn
  deriving DecidableEq, Repr

/-- The method `Tunnel.Dial`. `sshDial` is what `tunnel.sshClient.Dial("tcp", remoteAddr)`
returns when it is called: the new port forward connection or an error. -/
def Tunnel.Dial (sshDial : Except GoError Nat) (tunnel : Tunnel) (remoteAddr : String)
    (downstreamConn : Option Nat) : (Option NetConn × Option GoError) × Tunnel × List Event :=
  let isClosed := tunnel.isClosed
  if isClosed then
    ((none, some (GoError.new "tunnel is closed")), tunnel, [])
  else
    match sshDial with
    | Except.error err =>
      ((none, ContextError (some err)),
       { tunnel with portForwardFailures := tunnel.portForwardFailures.trySend 1 },
       [Event.sshClientDial remoteAddr])
    | Except.ok sshPortForwardConn =>
      let conn := NetConn.tunneled { Conn := sshPortForwardConn, downstreamConn := downstreamConn }
      let conn :=
        match tunnel.session with
        | some session => NetConn.stats conn session.StatsServerID session.StatsRegexps
        | none => conn
      ((some conn, none), tunnel, [Event.sshClientDial remoteAddr])

/-! ## TunneledConn -/

/-- The method `TunneledConn.Read`. `inner` is the `(n, err)` returned by `conn.Conn.Read`;
`tunnel` is the tunnel the conn points to. -/
def TunneledConn.Read (_conn : TunneledConn) (tunnel : Tunnel) (inner : Int × Option GoError) :
    (Int × Option GoError) × Tunnel :=
  let (n, err) := inner
  if err ≠ none ∧ err ≠ some GoError.eof then
    ((n, err), { tunnel with portForwardFailures := tunnel.portForwardFailures.trySend 1 })
  else
    ((n, err), tunnel)

/-- The method `TunneledConn.Write`. `inner` is the `(n, err)` returned by
`conn.Conn.Write`; `tunnel` is the tunnel the conn points to. -/
def TunneledConn.Write (_conn : TunneledConn) (tunnel : Tunnel) (inner : Int × Option GoError) :
    (Int × Option GoError) × Tunnel :=
  let (n, err) := inner
  if err ≠ none ∧ err ≠ some GoError.eof then
    ((n, err), { tunnel with portForwardFailures := tunnel.portForwardFailures.trySend 1 })
  else
    ((n, err), tunnel)

/-! ## operateTunnel -/

/-- What the collaborators of `sendStats` return when they are called. -/
structure StatsEnv where
  /-- Whether `transferstats.GetForServer` returns a payload. -/
  hasPayload : Bool
  /-- The error of `session.DoStatusRequest`. -/
  DoStatusRequest : Option GoError
  deriving DecidableEq, Repr

/-- The helper `sendStats`. -/
def sendStats (env : StatsEnv) (tunnel : Tunnel) : List Event :=
  if tunnel.session = none then
    [Event.sendStats]
  else
    let events := [Event.sendStats, Event.GetForServer tunnel.serverEntry.IpAddress]
    if env.hasPayload then
      match env.DoStatusRequest with
      | some err =>
        events ++
          [Event.DoStatusRequest,
           Event.NoticeAlert "DoStatusRequest failed for %s: %s"
             [NoticeArg.str tunnel.serverEntry.IpAddress, NoticeArg.err err],
           Event.PutBack tunnel.serverEntry.IpAddress]
      | none => events ++ [Event.DoStatusRequest]
    else
      events

/-- The case of the `select` in `operateTunnel` that is taken, with what it receives. -/
inductive SelectCase where
  /-- The case `<-statsTimer.C`, with the behaviour of the stats collaborators. -/
  | statsTimer (stats : StatsEnv) : SelectCase
  /-- The case `<-sshKeepAliveTimer.C`, with the error returned by `SendRequest`. -/
  | sshKeepAliveTimer (requestErr : Option GoError) : SelectCase
  /-- The case `failures := <-tunnel.portForwardFailures`, with the value received. -/
  | portForwardFailures (failures : Int) : SelectCase
  /-- The case `<-tunnel.closedSignal`. -/
  | closedSignal : SelectCase
  /-- The case `<-tunnel.shutdownOperateBroadcast`, with the behaviour of the stats
  collaborators. -/
  | shutdownOperateBroadcast (stats : StatsEnv) : SelectCase
  deriving DecidableEq, Repr

/-- How the `for err == nil` loop of `operateTunnel` is left. -/
inductive LoopExit where
  /-- No further case is ready: the goroutine stays in `select` with `err == nil`. -/
  | blocked : LoopExit
  /-- The `return` of the shutdown case. -/
  | returned : LoopExit
  /-- The loop condition failed: `err` is the terminal error. -/
  | failed (err : GoError) : LoopExit
  deriving DecidableEq, Repr

/-- The value of `fmt.Errorf("ssh keep alive failed: %s", err)`. -/
def keepAliveFailed : Option GoError → GoError
  | some err => GoError.errorfWrap "ssh keep alive failed: %s" [] err
  | none => GoError.errorf "ssh keep alive failed: %s" ["%!s(<nil>)"]

/-- The loop `for err == nil { select { ... } }` of `operateTunnel`, given the value of the
loop variable `err` and the cases taken from here on. -/
def operateLoop (config : Config) :
    Option GoError → Tunnel → List SelectCase → LoopExit × Tunnel × List Event
  | some err, tunnel, _ => (LoopExit.failed err, tunnel, [])
  | none, tunnel, [] => (LoopExit.blocked, tunnel, [])
  | none, tunnel, SelectCase.statsTimer stats :: rest =>
    let events := sendStats stats tunnel ++ [Event.statsTimerReset]
    let (exit, tunnel, later) := operateLoop config none tunnel rest
    (exit, tunnel, events ++ later)
  | none, tunnel, SelectCase.sshKeepAliveTimer requestErr :: rest =>
    -- `_, _, err := SendRequest(...)` declares a second `err`, local to this case; the
    -- assignment that follows writes that variable and the loop variable keeps its value
    let _errOfCase : Option GoError := some (keepAliveFailed requestErr)
    let events := [Event.SendRequest, Event.sshKeepAliveTimerReset]
    let (exit, tunnel, later) := operateLoop config none tunnel rest
    (exit, tunnel, events ++ later)
  | none, tunnel, SelectCase.portForwardFailures failures :: rest =>
    let tunnel :=
      { tunnel with portForwardFailureTotal := tunnel.portForwardFailureTotal + failures }
    let events :=
      [Event.NoticeInfo "port forward failures for %s: %d"
        [NoticeArg.str tunnel.serverEntry.IpAddress, NoticeArg.int tunnel.portForwardFailureTotal]]
    let err : Option GoError :=
      if tunnel.portForwardFailureTotal > config.PortForwardFailureThreshold then
        some (GoError.new "tunnel exceeded port forward failure threshold")
      else
        none
    let (exit, tunnel, later) := operateLoop config err tunnel rest
    (exit, tunnel, events ++ later)
  | none, tunnel, SelectCase.closedSignal :: rest =>
    operateLoop config (some (GoError.new "tunnel closed unexpectedly")) tunnel rest
  | none, tunnel, SelectCase.shutdownOperateBroadcast stats :: _ =>
    (LoopExit.returned, tunnel,
      sendStats stats tunnel ++ [Event.NoticeInfo "shutdown operate tunnel" []])

/-- The deferred calls of `operateTunnel`, in the order they run. -/
def operateDeferred : List Event :=
  [Event.sshKeepAliveTimerStop, Event.statsTimerStop, Event.operateWaitGroupDone]

/-- The method `Tunnel.operateTunnel`, given the cases its `select` takes. While the loop
is blocked the goroutine has not returned and no deferred call has run. -/
def Tunnel.operateTunnel (config : Config) (tunnel : Tunnel) (cases : List SelectCase) :
    LoopExit × Tunnel × List Event :=
  let timers := [Event.statsTimerNew, Event.sshKeepAliveTimerNew]
  match operateLoop config none tunnel cases with
  | (LoopExit.blocked, tunnel, events) => (LoopExit.blocked, tunnel, timers ++ events)
  | (LoopExit.returned, tunnel, events) =>
    (LoopExit.returned, tunnel, timers ++ events ++ operateDeferred)
  | (LoopExit.failed err, tunnel, events) =>
    (LoopExit.failed err, tunnel,
      timers ++ events ++
        [Event.NoticeAlert "operate tunnel error for %s: %s"
          [NoticeArg.str tunnel.serverEntry.IpAddress, NoticeArg.err err],
         Event.SignalTunnelFailure] ++ operateDeferred)

/-- The cases taken while the monitor drains a failure channel: one receive per queued
value, oldest first. -/
def drainCases (ch : Chan) : List SelectCase :=
  ch.buffer.map SelectCase.portForwardFailures

/-- A call on the `Tunneler` side that ends a tunnel. -/
inductive CloseCall where
  | Close : CloseCall
  | SignalComponentFailure : CloseCall
  deriving DecidableEq, Repr

/-- Runs the calls one after the other, as the mutex orders them, and collects their
events. -/
def runCloseCalls : Tunnel → List CloseCall → Tunnel × List Event
  | tunnel, [] => (tunnel, [])
  | tunnel, CloseCall.Close :: rest =>
    let (tunnel, events) := tunnel.Close
    let (tunnel, later) := runCloseCalls tunnel rest
    (tunnel, events ++ later)
  | tunnel, CloseCall.SignalComponentFailure :: rest =>
    let (tunnel, events) := tunnel.SignalComponentFailure
    let (tunnel, later) := runCloseCalls tunnel rest
    (tunnel, events ++ later)

/-! ## Concrete inputs -/

/-- A server whose only capability is `SSH`. -/
def sshOnlyEntry : ServerEntry :=
  { IpAddress := "192.0.2.1", Region := "CA", Capabilities := ["SSH"], SshPort := 22,
    SshObfuscatedPort := 53, SshObfuscatedKey := "key", SshHostKey := "aG9zdA==",
    SshUsername := "psiphon", SshPassword := "secret", MeekFrontingDomain := "" }

/-- A server with the capabilities `SSH`, `OSSH` and `UNFRONTED-MEEK`. -/
def meekEntry : ServerEntry :=
  { sshOnlyEntry with Capabilities := ["SSH", "OSSH", "UNFRONTED-MEEK"] }

/-- A configuration that requires the fronted meek protocol. -/
def frontedConfig : Config :=
  { TunnelProtocol := TUNNEL_PROTOCOL_FRONTED_MEEK, DisableApi := false,
    PortForwardFailureThreshold := 3, UpstreamHttpProxyAddress := "" }

/-- A configuration without a required protocol, with threshold 3. -/
def defaultConfig : Config :=
  { TunnelProtocol := "", DisableApi := false,
    PortForwardFailureThreshold := 3, UpstreamHttpProxyAddress := "" }

/-- Collaborators that all succeed: the host key of `sshOnlyEntry` decodes to the bytes of
`host`, and the server presents the key `serverKey`, which is the only thing the handshake
checks. -/
def presentingEnv (serverKey : List Nat) : EstablishEnv :=
  { DialMeek := none
    DialTCP := none
    SetClosedSignal := true
    NewObfuscatedSshConn := none
    DecodeString := fun s =>
      if s = "aG9zdA==" then Except.ok [104, 111, 115, 116] else Except.error (GoError.external 1)
    Marshal := fun sessionId password => Except.ok (sessionId ++ ":" ++ password)
    NewClientConn := fun clientConfig => clientConfig.HostKeyFallback serverKey
    NewSession := Except.ok { StatsServerID := "server", StatsRegexps := [] } }

/-- A server entry whose host key is not base64. -/
def badKeyEntry : ServerEntry :=
  { sshOnlyEntry with SshHostKey := "not base64!" }

/-- A configuration that requires plain SSH, with threshold 3. -/
def sshConfig : Config :=
  { TunnelProtocol := TUNNEL_PROTOCOL_SSH, DisableApi := false,
    PortForwardFailureThreshold := 3, UpstreamHttpProxyAddress := "" }

/-- An open tunnel to `sshOnlyEntry` with an empty failure channel of capacity 3. -/
def openTunnel : Tunnel :=
  { isClosed := false, serverEntry := sshOnlyEntry, session := none,
    protocol := TUNNEL_PROTOCOL_SSH,
    portForwardFailures := { buffer := [], capacity := 3 },
    portForwardFailureTotal := 0 }

/-- A stats environment in which a payload is pending and the status request fails. -/
def failingStats : StatsEnv :=
  { hasPayload := true, DoStatusRequest := some (GoError.external 7) }

/-- A tunnel made with threshold 3 whose failure channel is full: three tokens of value 1
in a buffer of capacity 3. -/
def saturatedTunnel : Tunnel :=
  { openTunnel with portForwardFailures := { buffer := [1, 1, 1], capacity := 3 } }

/-- A tunnel whose failure channel of capacity 3 holds two tokens. -/
def roomyTunnel : Tunnel :=
  { openTunnel with portForwardFailures := { buffer := [1, 1], capacity := 3 } }

/-- A port forward connection of handle 5 without a downstream peer. -/
def someConn : TunneledConn :=
  { Conn := 5, downstreamConn := none }

/-- Collaborators that all succeed except `NewSession`, which fails. -/
def noSessionEnv : EstablishEnv :=
  { presentingEnv [104, 111, 115, 116] with NewSession := Except.error (GoError.external 9) }

/-- An I/O error returned by the keep-alive request. -/
def keepAliveIoError : GoError :=
  GoError.external 32

/-! ## Lemmas on capability lists and on the preference loop -/

theorem Contains_iff_mem (list : List String) (target : String) :
    Contains list target = true ↔ target ∈ list := by
  induction list with
  | nil => simp [Contains]
  | cons listItem rest ih =>
    by_cases h : listItem = target
    · simp [Contains, h]
    · have h2 : ¬ target = listItem := fun e => h e.symm
      simp [Contains, h, h2, ih]

theorem selectProtocolLoop_first (capabilities : List String) (initial : String) :
    ∀ (before after : List String) (protocol : String),
      TrimSuffix protocol "-OSSH" ∈ capabilities →
      (∀ earlier ∈ before, TrimSuffix earlier "-OSSH" ∉ capabilities) →
      selectProtocolLoop capabilities (before ++ protocol :: after) initial = protocol := by
  intro before
  induction before with
  | nil =>
    intro after protocol hin _
    simp [selectProtocolLoop, (Contains_iff_mem _ _).2 hin]
  | cons first before ih =>
    intro after protocol hin hout
    have hfirst : Contains capabilities (TrimSuffix first "-OSSH") = false := by
      have := hout first (List.mem_cons_self _ _)
      rw [← Contains_iff_mem] at this
      simpa using this
    have hrest : ∀ earlier ∈ before, TrimSuffix earlier "-OSSH" ∉ capabilities :=
      fun e he => hout e (List.mem_cons_of_mem _ he)
    simp [selectProtocolLoop, hfirst, ih after protocol hin hrest]

theorem selectProtocolLoop_cases (capabilities : List String) (initial : String) :
    ∀ protocols : List String,
      ((∀ protocol ∈ protocols, TrimSuffix protocol "-OSSH" ∉ capabilities) ∧
        selectProtocolLoop capabilities protocols initial = initial) ∨
      (∃ before protocol after, protocols = before ++ protocol :: after ∧
        TrimSuffix protocol "-OSSH" ∈ capabilities ∧
        (∀ earlier ∈ before, TrimSuffix earlier "-OSSH" ∉ capabilities) ∧
        selectProtocolLoop capabilities protocols initial = protocol) := by
  intro protocols
  induction protocols with
  | nil => left; simp [selectProtocolLoop]
  | cons first rest ih =>
    by_cases hfirst : TrimSuffix first "-OSSH" ∈ capabilities
    · right
      refine ⟨[], first, rest, rfl, hfirst, by simp, ?_⟩
      simp [selectProtocolLoop, (Contains_iff_mem _ _).2 hfirst]
    · have hc : Contains capabilities (TrimSuffix first "-OSSH") = false := by
        rw [← Contains_iff_mem] at hfirst
        simpa using hfirst
      rcases ih with ⟨hnone, hloop⟩ | ⟨before, protocol, after, hsplit, hin, hout, hloop⟩
      · left
        refine ⟨?_, by simp [selectProtocolLoop, hc, hloop]⟩
        intro protocol hp
        rcases List.mem_cons.1 hp with rfl | hp
        · exact hfirst
        · exact hnone protocol hp
      · right
        refine ⟨first :: before, protocol, after, by simp [hsplit], hin, ?_, ?_⟩
        · intro earlier he
          rcases List.mem_cons.1 he with rfl | he
          · exact hfirst
          · exact hout earlier he
        · simp [selectProtocolLoop, hc, hloop]

theorem supported_ne_empty : ∀ protocol ∈ SupportedTunnelProtocols, protocol ≠ "" := by
  decide

/-! ## Protocol selection -/

/-- C1: with a non-empty client preference `p`, `selectProtocol` returns `(p, nil)` exactly
when `p` without a trailing `-OSSH` is among the server capabilities, and in every other
case it returns the empty protocol with a non-nil error. -/
theorem selectProtocol_preference (config : Config) (serverEntry : ServerEntry)
    (hp : config.TunnelProtocol ≠ "") :
    (selectProtocol config serverEntry = (config.TunnelProtocol, none) ↔
      TrimSuffix config.TunnelProtocol "-OSSH" ∈ serverEntry.Capabilities) ∧
    (TrimSuffix config.TunnelProtocol "-OSSH" ∉ serverEntry.Capabilities →
      ∃ err, selectProtocol config serverEntry = ("", some err)) := by
  by_cases hin : TrimSuffix config.TunnelProtocol "-OSSH" ∈ serverEntry.Capabilities
  · have hc := (Contains_iff_mem _ _).2 hin
    simp [selectProtocol, hp, hc, hin]
  · have hc : Contains serverEntry.Capabilities (TrimSuffix config.TunnelProtocol "-OSSH")
        = false := by
      rw [← Contains_iff_mem] at hin
      simpa using hin
    refine ⟨?_, fun _ => ⟨_, by simp [selectProtocol, hp, hc, ContextError]; rfl⟩⟩
    simp [selectProtocol, hp, hc, hin, ContextError]

theorem selectProtocol_preference_witness :
    frontedConfig.TunnelProtocol ≠ "" ∧
    TrimSuffix frontedConfig.TunnelProtocol "-OSSH" ∉ sshOnlyEntry.Capabilities ∧
    ∃ err, selectProtocol frontedConfig sshOnlyEntry = ("", some err) :=
  ⟨by decide, by decide,
    (selectProtocol_preference frontedConfig sshOnlyEntry (by decide)).2 (by decide)⟩

/-- C2: without a client preference, `selectProtocol` returns the first protocol of
`SupportedTunnelProtocols` (fronted meek, unfronted meek, obfuscated SSH, SSH) whose
required capability is present, no earlier protocol having its capability present, and it
returns an error exactly when none of the four required capabilities is present. -/
theorem selectProtocol_default (config : Config) (serverEntry : ServerEntry)
    (hp : config.TunnelProtocol = "") :
    SupportedTunnelProtocols =
      ["FRONTED-MEEK-OSSH", "UNFRONTED-MEEK-OSSH", "OSSH", "SSH"] ∧
    (∀ (before after : List String) (protocol : String),
      SupportedTunnelProtocols = before ++ protocol :: after →
      TrimSuffix protocol "-OSSH" ∈ serverEntry.Capabilities →
      (∀ earlier ∈ before, TrimSuffix earlier "-OSSH" ∉ serverEntry.Capabilities) →
      selectProtocol config serverEntry = (protocol, none)) ∧
    (∀ protocol, selectProtocol config serverEntry = (protocol, none) →
      ∃ before after, SupportedTunnelProtocols = before ++ protocol :: after ∧
        TrimSuffix protocol "-OSSH" ∈ serverEntry.Capabilities ∧
        ∀ earlier ∈ before, TrimSuffix earlier "-OSSH" ∉ serverEntry.Capabilities) ∧
    ((selectProtocol config serverEntry).2 ≠ none ↔
      ∀ protocol ∈ SupportedTunnelProtocols,
        TrimSuffix protocol "-OSSH" ∉ serverEntry.Capabilities) ∧
    ((selectProtocol config serverEntry).2 ≠ none →
      (selectProtocol config serverEntry).1 = "") := by
  have hfirst : ∀ (before after : List String) (protocol : String),
      SupportedTunnelProtocols = before ++ protocol :: after →
      TrimSuffix protocol "-OSSH" ∈ serverEntry.Capabilities →
      (∀ earlier ∈ before, TrimSuffix earlier "-OSSH" ∉ serverEntry.Capabilities) →
      selectProtocol config serverEntry = (protocol, none) := by
    intro before after protocol hsplit hin hout
    have hne : protocol ≠ "" :=
      supported_ne_empty protocol (by rw [hsplit]; simp)
    have hloop := selectProtocolLoop_first serverEntry.Capabilities "" before after protocol
      hin hout
    simp [selectProtocol, hp, hsplit, hloop, hne]
  refine ⟨rfl, hfirst, ?_⟩
  rcases selectProtocolLoop_cases serverEntry.Capabilities "" SupportedTunnelProtocols with
    ⟨hnone, hloop⟩ | ⟨before, found, after, hsplit, hin, hout, hloop⟩
  · have hsel : selectProtocol config serverEntry =
        ("", some (GoError.context
          (GoError.new "server does not have any supported capabilities"))) := by
      simp [selectProtocol, hp, hloop, ContextError]
    refine ⟨?_, ?_, ?_⟩
    · intro protocol h
      rw [hsel] at h
      simp at h
    · rw [hsel]
      simpa using hnone
    · intro _
      rw [hsel]
  · have hsel := hfirst before after found hsplit hin hout
    refine ⟨?_, ?_, ?_⟩
    · intro protocol h
      rw [hsel] at h
      have hpf : found = protocol := by simpa using h
      subst hpf
      exact ⟨before, after, hsplit, hin, hout⟩
    · rw [hsel]
      constructor
      · intro h
        exact absurd rfl h
      · intro h
        exact absurd hin (h found (by rw [hsplit]; simp))
    · rw [hsel]
      intro h
      exact absurd rfl h

theorem selectProtocol_default_witness :
    defaultConfig.TunnelProtocol = "" ∧
    selectProtocol defaultConfig meekEntry = ("UNFRONTED-MEEK-OSSH", none) :=
  ⟨rfl, (selectProtocol_default defaultConfig meekEntry rfl).2.1
    ["FRONTED-MEEK-OSSH"] ["OSSH", "SSH"] "UNFRONTED-MEEK-OSSH" rfl (by decide) (by decide)⟩

/-! ## Host key verification -/

/-- C3: the host key callback installed by `dialSsh` is `HostKeyFallback` applied to the
base64 decoding `e` of `SshHostKey`; it accepts a remote key exactly when the wire encoding
of that key equals `e`, and returns the `unexpected host public key` error otherwise. When
`SshHostKey` does not decode, `dialSsh` fails without calling `ssh.NewClientConn`. -/
theorem hostKey_verification (env : EstablishEnv) (config : Config) (serverEntry : ServerEntry)
    (selectedProtocol sessionId : String) :
    (∀ (e : List Nat) (payload : String),
      env.DialMeek = none → env.DialTCP = none → env.SetClosedSignal = true →
      env.NewObfuscatedSshConn = none →
      env.DecodeString serverEntry.SshHostKey = Except.ok e →
      env.Marshal sessionId serverEntry.SshPassword = Except.ok payload →
      (dialSsh env config serverEntry selectedProtocol sessionId).1 =
          ContextError (env.NewClientConn (sshClientConfig serverEntry e payload)) ∧
        (sshClientConfig serverEntry e payload).HostKeyFallback = HostKeyFallback e) ∧
    (∀ e k : List Nat, HostKeyFallback e k = none ↔ k = e) ∧
    (∀ e k : List Nat, k ≠ e →
      HostKeyFallback e k =
        some (GoError.context (GoError.new "unexpected host public key"))) ∧
    (∀ err, env.DecodeString serverEntry.SshHostKey = Except.error err →
      (dialSsh env config serverEntry selectedProtocol sessionId).1 ≠ none ∧
      Event.NewClientConn ∉ (dialSsh env config serverEntry selectedProtocol sessionId).2) := by
  rcases hl : protocolLayers serverEntry selectedProtocol with
    ⟨port, useMeek, useFronting, useObfuscatedSsh⟩
  refine ⟨?_, ?_, ?_, ?_⟩
  · intro e payload hmeek htcp hsig hobf hdec hmar
    refine ⟨?_, rfl⟩
    cases useMeek <;> cases useObfuscatedSsh <;>
      cases hnc : env.NewClientConn (sshClientConfig serverEntry e payload) <;>
      simp [dialSsh, dialSshLayers, hl, hmeek, htcp, hsig, hobf, hdec, hmar, hnc, ContextError]
  · intro e k
    by_cases h : e = k
    · simp [HostKeyFallback, h]
    · have h2 : ¬ k = e := fun x => h x.symm
      simp [HostKeyFallback, h, h2, ContextError]
  · intro e k hk
    have h : ¬ e = k := fun x => hk x.symm
    simp [HostKeyFallback, h, ContextError]
  · intro err hdec
    cases useMeek <;> cases useObfuscatedSsh <;> cases hsig : env.SetClosedSignal <;>
      cases hmeek : env.DialMeek <;> cases htcp : env.DialTCP <;>
      cases hobf : env.NewObfuscatedSshConn <;>
      simp [dialSsh, dialSshLayers, hl, hmeek, htcp, hsig, hobf, hdec, ContextError]

theorem hostKey_verification_witness :
    (dialSsh (presentingEnv [104, 111, 115, 116]) sshConfig sshOnlyEntry "SSH" "sid").1 = none ∧
    (dialSsh (presentingEnv [1, 2, 3]) sshConfig sshOnlyEntry "SSH" "sid").1 =
      some (GoError.context (GoError.context (GoError.new "unexpected host public key"))) ∧
    (dialSsh (presentingEnv []) sshConfig badKeyEntry "SSH" "sid").1 ≠ none ∧
    Event.NewClientConn ∉ (dialSsh (presentingEnv []) sshConfig badKeyEntry "SSH" "sid").2 :=
  ⟨((hostKey_verification (presentingEnv [104, 111, 115, 116]) sshConfig sshOnlyEntry
      "SSH" "sid").1 [104, 111, 115, 116] "sid:secret" rfl rfl rfl rfl rfl rfl).1.trans rfl,
   ((hostKey_verification (presentingEnv [1, 2, 3]) sshConfig sshOnlyEntry
      "SSH" "sid").1 [104, 111, 115, 116] "sid:secret" rfl rfl rfl rfl rfl rfl).1.trans rfl,
   (hostKey_verification (presentingEnv []) sshConfig badKeyEntry "SSH" "sid").2.2.2
      (GoError.external 1) rfl⟩

/-! ## Close and Dial -/

theorem Close_isClosed (tunnel : Tunnel) : (tunnel.Close).1.isClosed = true := rfl

theorem Close_of_closed (tunnel : Tunnel) (h : tunnel.isClosed = true) :
    tunnel.Close = (tunnel, []) := by
  cases tunnel
  simp only at h
  subst h
  rfl

theorem runCloseCalls_of_closed (calls : List CloseCall) :
    ∀ tunnel : Tunnel, tunnel.isClosed = true →
      (runCloseCalls tunnel calls).1 = tunnel ∧
      Event.closeShutdownOperateBroadcast ∉ (runCloseCalls tunnel calls).2 ∧
      Event.operateWaitGroupWait ∉ (runCloseCalls tunnel calls).2 ∧
      Event.connClose ∉ (runCloseCalls tunnel calls).2 := by
  induction calls with
  | nil => intro tunnel _; simp [runCloseCalls]
  | cons call rest ih =>
    intro tunnel h
    obtain ⟨h1, h2, h3, h4⟩ := ih tunnel h
    cases call <;>
      simp [runCloseCalls, Tunnel.SignalComponentFailure, Close_of_closed tunnel h, h1, h2, h3, h4]

/-- C4: once `Close` has returned, whatever `Close` and `SignalComponentFailure` calls
follow, `Dial` returns no connection and the `tunnel is closed` error; it makes no call at
all, so `sshClient.Dial` is not called, and it leaves the tunnel, its failure channel
included, as it was. -/
theorem Dial_after_Close (tunnel : Tunnel) (later : List CloseCall)
    (sshDial : Except GoError Nat) (remoteAddr : String) (downstreamConn : Option Nat) :
    Tunnel.Dial sshDial (runCloseCalls (tunnel.Close).1 later).1 remoteAddr downstreamConn =
        ((none, some (GoError.new "tunnel is closed")),
          (runCloseCalls (tunnel.Close).1 later).1, []) ∧
    Event.sshClientDial remoteAddr ∉
      (Tunnel.Dial sshDial (runCloseCalls (tunnel.Close).1 later).1
        remoteAddr downstreamConn).2.2 ∧
    (Tunnel.Dial sshDial (runCloseCalls (tunnel.Close).1 later).1
        remoteAddr downstreamConn).2.1.portForwardFailures =
      tunnel.portForwardFailures := by
  have hrun := (runCloseCalls_of_closed later (tunnel.Close).1 (Close_isClosed tunnel)).1
  have hdial : Tunnel.Dial sshDial (tunnel.Close).1 remoteAddr downstreamConn =
      ((none, some (GoError.new "tunnel is closed")), (tunnel.Close).1, []) := by
    simp [Tunnel.Dial, Tunnel.Close]
  rw [hrun, hdial]
  simp [Tunnel.Close]

/-- C7: `Close` is idempotent. On an open tunnel it closes the shutdown broadcast, waits
for the monitor, closes the transport and sets `isClosed`; on a closed tunnel it changes
nothing and makes no call. Over any sequence of `Close` and `SignalComponentFailure` calls
the shutdown broadcast is closed at most once and the transport is closed at most once. -/
theorem Close_idempotent (tunnel : Tunnel) (calls : List CloseCall) :
    (tunnel.isClosed = false →
      tunnel.Close = ({ tunnel with isClosed := true },
        [Event.closeShutdownOperateBroadcast, Event.operateWaitGroupWait, Event.connClose])) ∧
    (tunnel.isClosed = true → tunnel.Close = (tunnel, [])) ∧
    (tunnel.Close).1.Close = ((tunnel.Close).1, []) ∧
    (runCloseCalls (tunnel.Close).1 calls).1 = (tunnel.Close).1 ∧
    (runCloseCalls tunnel calls).2.count Event.closeShutdownOperateBroadcast ≤ 1 ∧
    (runCloseCalls tunnel calls).2.count Event.connClose ≤ 1 := by
  refine ⟨?_, Close_of_closed tunnel, Close_of_closed _ (Close_isClosed tunnel),
    (runCloseCalls_of_closed calls _ (Close_isClosed tunnel)).1, ?_⟩
  · intro h
    simp [Tunnel.Close, h]
  · induction calls generalizing tunnel with
    | nil => simp [runCloseCalls]
    | cons call rest ih =>
      cases hc : tunnel.isClosed
      · obtain ⟨_, h2, _, h4⟩ :=
          runCloseCalls_of_closed rest (tunnel.Close).1 (Close_isClosed tunnel)
        have hclose : tunnel.Close = ({ tunnel with isClosed := true },
            [Event.closeShutdownOperateBroadcast, Event.operateWaitGroupWait,
              Event.connClose]) := by
          simp [Tunnel.Close, hc]
        rw [hclose] at h2 h4
        cases call <;>
          simp [runCloseCalls, Tunnel.SignalComponentFailure, hclose,
            List.count_cons, List.count_eq_zero_of_not_mem h2,
            List.count_eq_zero_of_not_mem h4]
      · have hclose := Close_of_closed tunnel hc
        have := ih tunnel
        cases call <;>
          simpa [runCloseCalls, Tunnel.SignalComponentFailure, hclose, List.count_cons]
            using this

theorem Close_idempotent_witness :
    openTunnel.Close = ({ openTunnel with isClosed := true },
      [Event.closeShutdownOperateBroadcast, Event.operateWaitGroupWait, Event.connClose]) ∧
    (openTunnel.Close).1.Close = ((openTunnel.Close).1, []) :=
  ⟨(Close_idempotent openTunnel []).1 rfl,
   (Close_idempotent (openTunnel.Close).1 []).2.1 rfl⟩

/-! ## The monitor loop -/

theorem sendStats_count (stats : StatsEnv) (tunnel : Tunnel) :
    (sendStats stats tunnel).count Event.sendStats = 1 ∧
    Event.SignalTunnelFailure ∉ sendStats stats tunnel := by
  unfold sendStats
  cases tunnel.session <;> cases stats.hasPayload <;> cases stats.DoStatusRequest <;>
    simp [List.count_cons]

theorem operateLoop_no_signal (config : Config) (cases : List SelectCase) :
    ∀ (err : Option GoError) (tunnel : Tunnel),
      Event.SignalTunnelFailure ∉ (operateLoop config err tunnel cases).2.2 := by
  induction cases with
  | nil =>
    intro err tunnel
    cases err <;> simp [operateLoop]
  | cons c rest ih =>
    intro err tunnel
    cases err with
    | some e => simp [operateLoop]
    | none =>
      cases c with
      | statsTimer stats =>
        simp [operateLoop, (sendStats_count stats tunnel).2, ih]
      | sshKeepAliveTimer requestErr => simp [operateLoop, ih]
      | portForwardFailures failures => simp [operateLoop, ih]
      | closedSignal => simp [operateLoop, ih]
      | shutdownOperateBroadcast stats =>
        simp [operateLoop, (sendStats_count stats tunnel).2]

theorem operateLoop_append (config : Config) (rest : List SelectCase) :
    ∀ (before : List SelectCase) (tunnel : Tunnel),
      (operateLoop config none tunnel before).1 = LoopExit.blocked →
      operateLoop config none tunnel (before ++ rest) =
        ((operateLoop config none (operateLoop config none tunnel before).2.1 rest).1,
         (operateLoop config none (operateLoop config none tunnel before).2.1 rest).2.1,
         (operateLoop config none tunnel before).2.2 ++
           (operateLoop config none (operateLoop config none tunnel before).2.1 rest).2.2) := by
  intro before
  induction before with
  | nil => intro tunnel _; simp [operateLoop]
  | cons c before ih =>
    intro tunnel h
    cases c with
    | statsTimer stats =>
      simp only [operateLoop, List.cons_append] at h ⊢
      rw [show before.append rest = before ++ rest from rfl, ih tunnel h]
      simp
    | sshKeepAliveTimer requestErr =>
      simp only [operateLoop, List.cons_append] at h ⊢
      rw [show before.append rest = before ++ rest from rfl, ih tunnel h]
      simp
    | portForwardFailures failures =>
      simp only [operateLoop, List.cons_append] at h ⊢
      split at h
      · simp [operateLoop] at h
      · rename_i hle
        simp only [hle, if_false] at h ⊢
        rw [show before.append rest = before ++ rest from rfl, ih _ h]
        simp
    | closedSignal => simp [operateLoop] at h
    | shutdownOperateBroadcast stats => simp [operateLoop] at h

theorem operateLoop_tokens (config : Config) :
    ∀ (k : Nat) (tunnel : Tunnel),
      tunnel.portForwardFailureTotal + k ≤ config.PortForwardFailureThreshold →
      (operateLoop config none tunnel
          (List.replicate k (SelectCase.portForwardFailures 1))).1 = LoopExit.blocked ∧
      (operateLoop config none tunnel
          (List.replicate k (SelectCase.portForwardFailures 1))).2.1 =
        { tunnel with portForwardFailureTotal := tunnel.portForwardFailureTotal + k } := by
  intro k
  induction k with
  | zero => intro tunnel _; simp [operateLoop]
  | succ k ih =>
    intro tunnel h
    have hnot : ¬ tunnel.portForwardFailureTotal + 1 > config.PortForwardFailureThreshold := by
      push_cast at h
      omega
    have hk : ({ tunnel with portForwardFailureTotal := tunnel.portForwardFailureTotal + 1 }
        : Tunnel).portForwardFailureTotal + k ≤ config.PortForwardFailureThreshold := by
      push_cast at h
      simp only
      omega
    obtain ⟨h1, h2⟩ := ih _ hk
    simp only [List.replicate_succ, operateLoop, hnot, if_false]
    refine ⟨h1, ?_⟩
    rw [h2]
    simp only [Tunnel.mk.injEq, true_and]
    push_cast
    ring

theorem operateLoop_trip (config : Config) (tunnel : Tunnel) (rest : List SelectCase)
    (h : tunnel.portForwardFailureTotal + 1 > config.PortForwardFailureThreshold) :
    operateLoop config none tunnel (SelectCase.portForwardFailures 1 :: rest) =
      (LoopExit.failed (GoError.new "tunnel exceeded port forward failure threshold"),
       { tunnel with portForwardFailureTotal := tunnel.portForwardFailureTotal + 1 },
       [Event.NoticeInfo "port forward failures for %s: %d"
         [NoticeArg.str tunnel.serverEntry.IpAddress,
          NoticeArg.int (tunnel.portForwardFailureTotal + 1)]]) := by
  simp [operateLoop, h]

theorem operateLoop_exceed (config : Config) (tunnel : Tunnel) (rest : List SelectCase)
    (hT : 0 ≤ config.PortForwardFailureThreshold)
    (h0 : tunnel.portForwardFailureTotal = 0) :
    operateLoop config none tunnel
        (List.replicate (config.PortForwardFailureThreshold.toNat + 1)
          (SelectCase.portForwardFailures 1) ++ rest) =
      (LoopExit.failed (GoError.new "tunnel exceeded port forward failure threshold"),
       { tunnel with portForwardFailureTotal := config.PortForwardFailureThreshold + 1 },
       (operateLoop config none tunnel
          (List.replicate config.PortForwardFailureThreshold.toNat
            (SelectCase.portForwardFailures 1))).2.2 ++
         [Event.NoticeInfo "port forward failures for %s: %d"
           [NoticeArg.str tunnel.serverEntry.IpAddress,
            NoticeArg.int (config.PortForwardFailureThreshold + 1)]]) := by
  have hcast : ((config.PortForwardFailureThreshold.toNat : Nat) : Int) =
      config.PortForwardFailureThreshold := Int.toNat_of_nonneg hT
  have hle : tunnel.portForwardFailureTotal + (config.PortForwardFailureThreshold.toNat : Nat)
      ≤ config.PortForwardFailureThreshold := by
    rw [h0, hcast]
    simp
  obtain ⟨h1, h2⟩ := operateLoop_tokens config config.PortForwardFailureThreshold.toNat tunnel hle
  rw [List.replicate_succ', List.append_assoc, List.singleton_append,
    operateLoop_append config _ _ tunnel h1, h2]
  have htrip : ({ tunnel with portForwardFailureTotal :=
      tunnel.portForwardFailureTotal + (config.PortForwardFailureThreshold.toNat : Nat) }
        : Tunnel).portForwardFailureTotal + 1 > config.PortForwardFailureThreshold := by
    simp only [h0, hcast]
    omega
  rw [operateLoop_trip config _ rest htrip]
  simp only [h0, hcast, zero_add]

/-- C5: with a threshold `T ≥ 0` and a failure total that starts at 0, a monitor that
receives only failure tokens of value 1 has no terminal error after any `k ≤ T` tokens
(the loop stays in its `select` and the owner is not signalled); the token number `T + 1`
sets the `exceeded port forward failure threshold` error, the loop exits without taking a
further case, and `SignalTunnelFailure` is called exactly once. -/
theorem operateTunnel_threshold (config : Config) (tunnel : Tunnel) (rest : List SelectCase)
    (hT : 0 ≤ config.PortForwardFailureThreshold)
    (h0 : tunnel.portForwardFailureTotal = 0) :
    (∀ k : Nat, (k : Int) ≤ config.PortForwardFailureThreshold →
      (tunnel.operateTunnel config
          (List.replicate k (SelectCase.portForwardFailures 1))).1 = LoopExit.blocked ∧
      Event.SignalTunnelFailure ∉
        (tunnel.operateTunnel config
          (List.replicate k (SelectCase.portForwardFailures 1))).2.2) ∧
    (tunnel.operateTunnel config
        (List.replicate (config.PortForwardFailureThreshold.toNat + 1)
          (SelectCase.portForwardFailures 1) ++ rest)).1 =
      LoopExit.failed (GoError.new "tunnel exceeded port forward failure threshold") ∧
    tunnel.operateTunnel config
        (List.replicate (config.PortForwardFailureThreshold.toNat + 1)
          (SelectCase.portForwardFailures 1) ++ rest) =
      tunnel.operateTunnel config
        (List.replicate (config.PortForwardFailureThreshold.toNat + 1)
          (SelectCase.portForwardFailures 1)) ∧
    (tunnel.operateTunnel config
        (List.replicate (config.PortForwardFailureThreshold.toNat + 1)
          (SelectCase.portForwardFailures 1) ++ rest)).2.2.count
      Event.SignalTunnelFailure = 1 := by
  have hsig := operateLoop_no_signal config
    (List.replicate config.PortForwardFailureThreshold.toNat
      (SelectCase.portForwardFailures 1)) none tunnel
  have hrest := operateLoop_exceed config tunnel rest hT h0
  have hnil := operateLoop_exceed config tunnel [] hT h0
  rw [List.append_nil] at hnil
  refine ⟨?_, ?_, ?_, ?_⟩
  · intro k hk
    have hle : tunnel.portForwardFailureTotal + (k : Int)
        ≤ config.PortForwardFailureThreshold := by
      rw [h0]
      simpa using hk
    obtain ⟨h1, _⟩ := operateLoop_tokens config k tunnel hle
    have hno := operateLoop_no_signal config
      (List.replicate k (SelectCase.portForwardFailures 1)) none tunnel
    rcases hloop : operateLoop config none tunnel
      (List.replicate k (SelectCase.portForwardFailures 1)) with ⟨exit, t, events⟩
    rw [hloop] at h1 hno
    simp only at h1 hno
    subst h1
    simp [Tunnel.operateTunnel, hloop, hno]
  · simp [Tunnel.operateTunnel, hrest]
  · simp [Tunnel.operateTunnel, hrest, hnil]
  · simp [Tunnel.operateTunnel, hrest, operateDeferred, List.count_cons,
      List.count_eq_zero_of_not_mem hsig]

theorem operateTunnel_threshold_witness :
    (0 : Int) ≤ defaultConfig.PortForwardFailureThreshold ∧
    openTunnel.portForwardFailureTotal = 0 ∧
    (openTunnel.operateTunnel defaultConfig
        (List.replicate 3 (SelectCase.portForwardFailures 1))).1 = LoopExit.blocked ∧
    (openTunnel.operateTunnel defaultConfig
        (List.replicate 4 (SelectCase.portForwardFailures 1) ++ [SelectCase.closedSignal])).1 =
      LoopExit.failed (GoError.new "tunnel exceeded port forward failure threshold") :=
  ⟨by decide, rfl,
   ((operateTunnel_threshold defaultConfig openTunnel [] (by decide) rfl).1 3 (by decide)).1,
   (operateTunnel_threshold defaultConfig openTunnel [SelectCase.closedSignal]
      (by decide) rfl).2.1⟩

/-- C6: in every monitor state, the shutdown case calls `sendStats` once, emits the
`shutdown operate tunnel` notice and returns, whatever the failure total is and whatever
cases are still pending; a run of `operateTunnel` that reaches the shutdown case never
calls `SignalTunnelFailure`. -/
theorem operateTunnel_shutdown (config : Config) (tunnel : Tunnel) (stats : StatsEnv)
    (before rest : List SelectCase)
    (hrun : (operateLoop config none tunnel before).1 = LoopExit.blocked) :
    (∀ state : Tunnel,
      operateLoop config none state (SelectCase.shutdownOperateBroadcast stats :: rest) =
        (LoopExit.returned, state,
          sendStats stats state ++ [Event.NoticeInfo "shutdown operate tunnel" []]) ∧
      (sendStats stats state ++ [Event.NoticeInfo "shutdown operate tunnel" []]).count
        Event.sendStats = 1 ∧
      Event.SignalTunnelFailure ∉
        sendStats stats state ++ [Event.NoticeInfo "shutdown operate tunnel" []]) ∧
    (tunnel.operateTunnel config
        (before ++ SelectCase.shutdownOperateBroadcast stats :: rest)).1 = LoopExit.returned ∧
    Event.SignalTunnelFailure ∉
      (tunnel.operateTunnel config
        (before ++ SelectCase.shutdownOperateBroadcast stats :: rest)).2.2 := by
  refine ⟨?_, ?_⟩
  · intro state
    refine ⟨by simp [operateLoop], ?_, ?_⟩
    · simp [List.count_append, (sendStats_count stats state).1, List.count_cons]
    · simp [(sendStats_count stats state).2]
  · have happ := operateLoop_append config
      (SelectCase.shutdownOperateBroadcast stats :: rest) before tunnel hrun
    have hno := operateLoop_no_signal config before none tunnel
    simp only [operateLoop] at happ
    simp [Tunnel.operateTunnel, happ, hno, operateDeferred,
      (sendStats_count stats _).2]

theorem operateTunnel_shutdown_witness :
    (operateLoop defaultConfig none openTunnel
      [SelectCase.portForwardFailures 1, SelectCase.sshKeepAliveTimer none]).1 =
        LoopExit.blocked ∧
    (openTunnel.operateTunnel defaultConfig
      ([SelectCase.portForwardFailures 1, SelectCase.sshKeepAliveTimer none] ++
        SelectCase.shutdownOperateBroadcast failingStats :: [SelectCase.closedSignal])).1 =
      LoopExit.returned :=
  ⟨by decide,
   (operateTunnel_shutdown defaultConfig openTunnel failingStats
      [SelectCase.portForwardFailures 1, SelectCase.sshKeepAliveTimer none]
      [SelectCase.closedSignal] (by decide)).2.1⟩

/-! ## A saturated failure channel -/

/-- The claim C10 fails with threshold 3: the channel of capacity 3 is full of tokens of
value 1, the total starts at 0, and after the monitor has received the three tokens the
total is 3, no terminal error is set and the loop is still in its `select`. -/
theorem drain_saturated_counterexample :
    makeChan defaultConfig.PortForwardFailureThreshold = some { buffer := [], capacity := 3 } ∧
    saturatedTunnel.portForwardFailures = { buffer := List.replicate 3 1, capacity := 3 } ∧
    saturatedTunnel.portForwardFailureTotal = 0 ∧
    (saturatedTunnel.operateTunnel defaultConfig
      (drainCases saturatedTunnel.portForwardFailures)).1 = LoopExit.blocked ∧
    (saturatedTunnel.operateTunnel defaultConfig
      (drainCases saturatedTunnel.portForwardFailures)).2.1.portForwardFailureTotal = 3 ∧
    ¬ ∃ err, (saturatedTunnel.operateTunnel defaultConfig
      (drainCases saturatedTunnel.portForwardFailures)).1 = LoopExit.failed err := by
  refine ⟨by decide, by decide, rfl, by decide, by decide, ?_⟩
  rintro ⟨err, h⟩
  have hb : (saturatedTunnel.operateTunnel defaultConfig
      (drainCases saturatedTunnel.portForwardFailures)).1 = LoopExit.blocked := by decide
  rw [hb] at h
  cases h

/-- C10, amended: the channel is made with capacity `T`; when it holds `T` tokens of value
1 and the total starts at 0, draining it brings the total to exactly `T`, which does not
exceed `T`: no terminal error is set, the loop stays in its `select` and the owner is not
signalled. The next token, number `T + 1`, sets the `exceeded port forward failure
threshold` error. -/
theorem drain_saturated (config : Config) (tunnel : Tunnel)
    (hT : 0 ≤ config.PortForwardFailureThreshold)
    (h0 : tunnel.portForwardFailureTotal = 0)
    (hfull : tunnel.portForwardFailures =
      { buffer := List.replicate config.PortForwardFailureThreshold.toNat 1,
        capacity := config.PortForwardFailureThreshold.toNat }) :
    makeChan config.PortForwardFailureThreshold =
      some { buffer := [], capacity := config.PortForwardFailureThreshold.toNat } ∧
    (tunnel.operateTunnel config (drainCases tunnel.portForwardFailures)).1 =
      LoopExit.blocked ∧
    (tunnel.operateTunnel config
      (drainCases tunnel.portForwardFailures)).2.1.portForwardFailureTotal =
        config.PortForwardFailureThreshold ∧
    Event.SignalTunnelFailure ∉
      (tunnel.operateTunnel config (drainCases tunnel.portForwardFailures)).2.2 ∧
    (tunnel.operateTunnel config
      (drainCases tunnel.portForwardFailures ++ [SelectCase.portForwardFailures 1])).1 =
        LoopExit.failed (GoError.new "tunnel exceeded port forward failure threshold") := by
  have hcast : ((config.PortForwardFailureThreshold.toNat : Nat) : Int) =
      config.PortForwardFailureThreshold := Int.toNat_of_nonneg hT
  have hdrain : drainCases tunnel.portForwardFailures =
      List.replicate config.PortForwardFailureThreshold.toNat
        (SelectCase.portForwardFailures 1) := by
    rw [hfull]
    simp [drainCases]
  have hle : tunnel.portForwardFailureTotal + (config.PortForwardFailureThreshold.toNat : Nat)
      ≤ config.PortForwardFailureThreshold := by
    rw [h0, hcast]
    simp
  obtain ⟨h1, h2⟩ := operateLoop_tokens config config.PortForwardFailureThreshold.toNat tunnel hle
  have hno := operateLoop_no_signal config
    (List.replicate config.PortForwardFailureThreshold.toNat
      (SelectCase.portForwardFailures 1)) none tunnel
  have hexceed := operateLoop_exceed config tunnel [] hT h0
  rw [List.append_nil, List.replicate_succ'] at hexceed
  rw [hdrain]
  refine ⟨?_, ?_, ?_, ?_, ?_⟩
  · have hneg : ¬ config.PortForwardFailureThreshold < 0 := by omega
    simp [makeChan, hneg]
  · rcases hloop : operateLoop config none tunnel
      (List.replicate config.PortForwardFailureThreshold.toNat
        (SelectCase.portForwardFailures 1)) with ⟨exit, t, events⟩
    rw [hloop] at h1
    simp only at h1
    subst h1
    simp [Tunnel.operateTunnel, hloop]
  · rcases hloop : operateLoop config none tunnel
      (List.replicate config.PortForwardFailureThreshold.toNat
        (SelectCase.portForwardFailures 1)) with ⟨exit, t, events⟩
    rw [hloop] at h1 h2
    simp only at h1 h2
    subst h1
    subst h2
    simp [Tunnel.operateTunnel, hloop, h0, hcast]
  · rcases hloop : operateLoop config none tunnel
      (List.replicate config.PortForwardFailureThreshold.toNat
        (SelectCase.portForwardFailures 1)) with ⟨exit, t, events⟩
    rw [hloop] at h1 hno
    simp only at h1 hno
    subst h1
    simp [Tunnel.operateTunnel, hloop, hno]
  · simp [Tunnel.operateTunnel, hexceed]

theorem drain_saturated_witness :
    (0 : Int) ≤ defaultConfig.PortForwardFailureThreshold ∧
    saturatedTunnel.portForwardFailureTotal = 0 ∧
    (saturatedTunnel.operateTunnel defaultConfig
      (drainCases saturatedTunnel.portForwardFailures)).2.1.portForwardFailureTotal = 3 ∧
    (saturatedTunnel.operateTunnel defaultConfig
      (drainCases saturatedTunnel.portForwardFailures ++
        [SelectCase.portForwardFailures 1])).1 =
      LoopExit.failed (GoError.new "tunnel exceeded port forward failure threshold") :=
  ⟨by decide, rfl,
   (drain_saturated defaultConfig saturatedTunnel (by decide) rfl rfl).2.2.1,
   (drain_saturated defaultConfig saturatedTunnel (by decide) rfl rfl).2.2.2.2⟩

/-! ## Failure reports of a port forward connection -/

/-- C9: `Read` and `Write` of a `TunneledConn` return exactly the `(n, err)` of the inner
stream. When `err` is neither nil nor `io.EOF`, one token of value 1 is appended to the
failure channel if it has room, and the channel is left as it is if it is full; when `err`
is nil or `io.EOF` the tunnel is left unchanged. Nothing else in the tunnel changes. -/
theorem TunneledConn_report (conn : TunneledConn) (tunnel : Tunnel) (n : Int)
    (err : Option GoError) :
    (conn.Read tunnel (n, err)).1 = (n, err) ∧
    (conn.Write tunnel (n, err)).1 = (n, err) ∧
    conn.Write tunnel (n, err) = conn.Read tunnel (n, err) ∧
    (err ≠ none → err ≠ some GoError.eof →
      tunnel.portForwardFailures.buffer.length < tunnel.portForwardFailures.capacity →
      (conn.Read tunnel (n, err)).2 =
        { tunnel with portForwardFailures :=
            { tunnel.portForwardFailures with
                buffer := tunnel.portForwardFailures.buffer ++ [1] } }) ∧
    (err ≠ none → err ≠ some GoError.eof →
      ¬ tunnel.portForwardFailures.buffer.length < tunnel.portForwardFailures.capacity →
      (conn.Read tunnel (n, err)).2 = tunnel) ∧
    (err = none ∨ err = some GoError.eof → (conn.Read tunnel (n, err)).2 = tunnel) := by
  refine ⟨?_, ?_, rfl, ?_, ?_, ?_⟩
  · unfold TunneledConn.Read
    simp only
    split <;> rfl
  · unfold TunneledConn.Write
    simp only
    split <;> rfl
  · intro h1 h2 hroom
    simp [TunneledConn.Read, h1, h2, Chan.trySend, hroom]
  · intro h1 h2 hfull
    simp [TunneledConn.Read, h1, h2, Chan.trySend, hfull]
  · intro h
    rcases h with h | h <;> simp [TunneledConn.Read, h]

theorem TunneledConn_report_witness :
    (someConn.Read roomyTunnel (0, some (GoError.external 104))).2.portForwardFailures =
      { buffer := [1, 1, 1], capacity := 3 } ∧
    (someConn.Read saturatedTunnel (0, some (GoError.external 104))).2 = saturatedTunnel ∧
    (someConn.Read roomyTunnel (0, some GoError.eof)).2 = roomyTunnel :=
  ⟨by
      rw [(TunneledConn_report someConn roomyTunnel 0 (some (GoError.external 104))).2.2.2.1
        (by decide) (by decide) (by decide)]
      rfl,
   (TunneledConn_report someConn saturatedTunnel 0 (some (GoError.external 104))).2.2.2.2.1
      (by decide) (by decide) (by decide),
   (TunneledConn_report someConn roomyTunnel 0 (some GoError.eof)).2.2.2.2.2 (Or.inr rfl)⟩

/-! ## Cleanup during establishment -/

theorem dialSshLayers_no_close (env : EstablishEnv) (serverEntry : ServerEntry)
    (useObfuscatedSsh : Bool) (sessionId : String) :
    Event.connClose ∉ (dialSshLayers env serverEntry useObfuscatedSsh sessionId).2 := by
  unfold dialSshLayers
  cases env.SetClosedSignal <;> cases useObfuscatedSsh <;>
    cases env.NewObfuscatedSshConn <;>
    cases env.DecodeString serverEntry.SshHostKey <;>
    cases env.Marshal sessionId serverEntry.SshPassword <;>
    simp <;> split <;> simp

theorem dialSshLayers_ok_iff (env : EstablishEnv) (serverEntry : ServerEntry)
    (useObfuscatedSsh : Bool) (sessionId : String) :
    (dialSshLayers env serverEntry useObfuscatedSsh sessionId).1 = none ↔
      env.SetClosedSignal = true ∧
      (useObfuscatedSsh = true → env.NewObfuscatedSshConn = none) ∧
      ∃ e payload, env.DecodeString serverEntry.SshHostKey = Except.ok e ∧
        env.Marshal sessionId serverEntry.SshPassword = Except.ok payload ∧
        env.NewClientConn (sshClientConfig serverEntry e payload) = none := by
  unfold dialSshLayers
  cases hsig : env.SetClosedSignal
  · simp [ContextError]
  · cases hobf : env.NewObfuscatedSshConn <;> cases useObfuscatedSsh <;>
      cases hdec : env.DecodeString serverEntry.SshHostKey <;>
      cases hmar : env.Marshal sessionId serverEntry.SshPassword <;>
      simp [ContextError] <;>
      split <;> simp_all

theorem dialSsh_of_dialed (env : EstablishEnv) (config : Config) (serverEntry : ServerEntry)
    (selectedProtocol sessionId : String)
    (hdial : (if (protocolLayers serverEntry selectedProtocol).2.1 = true
      then env.DialMeek else env.DialTCP) = none) :
    (dialSsh env config serverEntry selectedProtocol sessionId).1 =
      (dialSshLayers env serverEntry
        (protocolLayers serverEntry selectedProtocol).2.2.2 sessionId).1 ∧
    (dialSsh env config serverEntry selectedProtocol sessionId).2.count Event.connClose =
      if (dialSsh env config serverEntry selectedProtocol sessionId).1 = none then 0 else 1 := by
  rcases hl : protocolLayers serverEntry selectedProtocol with
    ⟨port, useMeek, useFronting, useObfuscatedSsh⟩
  rw [hl] at hdial
  have hno := dialSshLayers_no_close env serverEntry useObfuscatedSsh sessionId
  rcases hlayers : dialSshLayers env serverEntry useObfuscatedSsh sessionId with ⟨err, events⟩
  rw [hlayers] at hno
  simp only at hno
  have hcount := List.count_eq_zero_of_not_mem hno
  cases useMeek <;> simp only [Bool.false_eq_true, if_false, if_true] at hdial <;>
    cases err <;>
    simp [dialSsh, hl, hdial, hlayers, List.count_cons, List.count_append, hcount]

/-- C8: in `EstablishTunnel`, once the base transport has been dialed, the failure of any
later step closes the transport exactly once and makes `EstablishTunnel` return a nil
tunnel with a non-nil error. The steps are the installation of the close signal, the
obfuscation layer when the protocol uses one, the base64 decoding of the host key, the
marshalling of the password payload, the SSH handshake, and `NewSession` when it is called
(the API is enabled and the failure channel could be made). When every step succeeds the
transport is not closed, and the tunnel is returned. -/
theorem EstablishTunnel_cleanup (env : EstablishEnv) (config : Config) (sessionId : String)
    (serverEntry : ServerEntry) (selectedProtocol : String)
    (hsel : selectProtocol config serverEntry = (selectedProtocol, none))
    (hdial : (if (protocolLayers serverEntry selectedProtocol).2.1 = true
      then env.DialMeek else env.DialTCP) = none) :
    ((env.SetClosedSignal = false ∨
      ((protocolLayers serverEntry selectedProtocol).2.2.2 = true ∧
        env.NewObfuscatedSshConn ≠ none) ∨
      (∃ err, env.DecodeString serverEntry.SshHostKey = Except.error err) ∨
      (∃ err, env.Marshal sessionId serverEntry.SshPassword = Except.error err) ∨
      (∃ e payload, env.DecodeString serverEntry.SshHostKey = Except.ok e ∧
        env.Marshal sessionId serverEntry.SshPassword = Except.ok payload ∧
        env.NewClientConn (sshClientConfig serverEntry e payload) ≠ none) ∨
      (config.DisableApi = false ∧ 0 ≤ config.PortForwardFailureThreshold ∧
        ∃ err, env.NewSession = Except.error err)) →
      (EstablishTunnel env config sessionId serverEntry).2.count Event.connClose = 1 ∧
      ∃ err, (EstablishTunnel env config sessionId serverEntry).1 =
        Outcome.returned (none, some err)) ∧
    (env.SetClosedSignal = true →
      ((protocolLayers serverEntry selectedProtocol).2.2.2 = true →
        env.NewObfuscatedSshConn = none) →
      (∃ e payload, env.DecodeString serverEntry.SshHostKey = Except.ok e ∧
        env.Marshal sessionId serverEntry.SshPassword = Except.ok payload ∧
        env.NewClientConn (sshClientConfig serverEntry e payload) = none) →
      (config.DisableApi = false → ∃ session, env.NewSession = Except.ok session) →
      (EstablishTunnel env config sessionId serverEntry).2.count Event.connClose = 0 ∧
      (0 ≤ config.PortForwardFailureThreshold →
        ∃ tunnel, (EstablishTunnel env config sessionId serverEntry).1 =
          Outcome.returned (some tunnel, none))) := by
  obtain ⟨herr, hcount⟩ := dialSsh_of_dialed env config serverEntry selectedProtocol sessionId hdial
  have hiff := dialSshLayers_ok_iff env serverEntry
    (protocolLayers serverEntry selectedProtocol).2.2.2 sessionId
  rw [← herr] at hiff
  rcases hd : dialSsh env config serverEntry selectedProtocol sessionId with ⟨err, events⟩
  rw [hd] at hiff hcount
  simp only at hiff hcount
  constructor
  · intro hfail
    cases err with
    | some e =>
      simp only [reduceCtorEq, if_false] at hcount
      simp [EstablishTunnel, hsel, hd, hcount, ContextError]
    | none =>
      obtain ⟨hsig, hobf, e, payload, hdec, hmar, hnc⟩ := hiff.1 rfl
      rcases hfail with h | ⟨h1, h2⟩ | ⟨x, h⟩ | ⟨x, h⟩ | ⟨e2, p2, h1, h2, h3⟩ | ⟨hapi, hT, x, h⟩
      · rw [hsig] at h
        cases h
      · exact absurd (hobf h1) h2
      · rw [hdec] at h
        cases h
      · rw [hmar] at h
        cases h
      · rw [hdec] at h1
        rw [hmar] at h2
        cases h1
        cases h2
        exact absurd hnc h3
      · have hneg : ¬ config.PortForwardFailureThreshold < 0 := by omega
        simp only [if_true] at hcount
        simp [EstablishTunnel, hsel, hd, establishTunnelSession, makeChan, hneg, hapi, h,
          ContextError, List.count_append, hcount, List.count_cons]
  · intro hsig hobf hhand hsess
    have hnone : err = none := hiff.2 ⟨hsig, hobf, hhand⟩
    subst hnone
    simp only [if_true] at hcount
    constructor
    · cases hmk : makeChan config.PortForwardFailureThreshold with
      | none =>
        simp [EstablishTunnel, hsel, hd, establishTunnelSession, hmk, hcount]
      | some ch =>
        cases hapi : config.DisableApi with
        | true =>
          simp [EstablishTunnel, hsel, hd, establishTunnelSession, hmk, hapi, hcount,
            List.count_append, List.count_cons]
        | false =>
          obtain ⟨session, hsession⟩ := hsess hapi
          simp [EstablishTunnel, hsel, hd, establishTunnelSession, hmk, hapi, hsession, hcount,
            List.count_append, List.count_cons]
    · intro hT
      have hneg : ¬ config.PortForwardFailureThreshold < 0 := by omega
      cases hapi : config.DisableApi with
      | true =>
        simp [EstablishTunnel, hsel, hd, establishTunnelSession, makeChan, hneg, hapi]
      | false =>
        obtain ⟨session, hsession⟩ := hsess hapi
        simp [EstablishTunnel, hsel, hd, establishTunnelSession, makeChan, hneg, hapi, hsession]

theorem EstablishTunnel_cleanup_witness :
    (EstablishTunnel (presentingEnv [1, 2, 3]) sshConfig "sid" sshOnlyEntry).2.count
      Event.connClose = 1 ∧
    (EstablishTunnel noSessionEnv sshConfig "sid" sshOnlyEntry).2.count Event.connClose = 1 ∧
    (EstablishTunnel (presentingEnv [104, 111, 115, 116]) sshConfig "sid"
      sshOnlyEntry).2.count Event.connClose = 0 :=
  ⟨((EstablishTunnel_cleanup (presentingEnv [1, 2, 3]) sshConfig "sid" sshOnlyEntry "SSH"
      rfl rfl).1
      (Or.inr (Or.inr (Or.inr (Or.inr (Or.inl
        ⟨[104, 111, 115, 116], "sid:secret", rfl, rfl, by decide⟩)))))).1,
   ((EstablishTunnel_cleanup noSessionEnv sshConfig "sid" sshOnlyEntry "SSH" rfl rfl).1
      (Or.inr (Or.inr (Or.inr (Or.inr (Or.inr
        ⟨rfl, by decide, GoError.external 9, rfl⟩)))))).1,
   ((EstablishTunnel_cleanup (presentingEnv [104, 111, 115, 116]) sshConfig "sid"
      sshOnlyEntry "SSH" rfl rfl).2 rfl (fun h => absurd h (by decide))
      ⟨[104, 111, 115, 116], "sid:secret", rfl, rfl, rfl⟩
      (fun _ => ⟨_, rfl⟩)).1⟩

/-! ## The keep-alive case -/

theorem operateLoop_keepAlive (config : Config) (tunnel : Tunnel)
    (requestErr : Option GoError) (rest : List SelectCase) :
    operateLoop config none tunnel (SelectCase.sshKeepAliveTimer requestErr :: rest) =
      ((operateLoop config none tunnel rest).1,
       (operateLoop config none tunnel rest).2.1,
       [Event.SendRequest, Event.sshKeepAliveTimerReset] ++
         (operateLoop config none tunnel rest).2.2) := by
  simp [operateLoop]

/-- C11, the code at the failing input: the keep-alive timer fires and `SendRequest`
returns an I/O error. The loop of `operateTunnel` sends the request and re-arms the timer,
but its terminal error stays nil: the loop is still in its `select`, it takes the cases
that follow (here the shutdown case, after which it returns normally), and
`SignalTunnelFailure` is never called. The run is the same as when the request succeeds. -/
theorem keepAlive_error_not_terminal :
    operateLoop defaultConfig none openTunnel
        [SelectCase.sshKeepAliveTimer (some keepAliveIoError)] =
      (LoopExit.blocked, openTunnel, [Event.SendRequest, Event.sshKeepAliveTimerReset]) ∧
    (openTunnel.operateTunnel defaultConfig
        [SelectCase.sshKeepAliveTimer (some keepAliveIoError)]).1 = LoopExit.blocked ∧
    (¬ ∃ err, (openTunnel.operateTunnel defaultConfig
        [SelectCase.sshKeepAliveTimer (some keepAliveIoError)]).1 = LoopExit.failed err) ∧
    Event.SignalTunnelFailure ∉
      (openTunnel.operateTunnel defaultConfig
        [SelectCase.sshKeepAliveTimer (some keepAliveIoError)]).2.2 ∧
    (openTunnel.operateTunnel defaultConfig
        [SelectCase.sshKeepAliveTimer (some keepAliveIoError),
         SelectCase.shutdownOperateBroadcast failingStats]).1 = LoopExit.returned ∧
    openTunnel.operateTunnel defaultConfig
        [SelectCase.sshKeepAliveTimer (some keepAliveIoError)] =
      openTunnel.operateTunnel defaultConfig [SelectCase.sshKeepAliveTimer none] := by
  refine ⟨by decide, by decide, ?_, by decide, by decide, by decide⟩
  rintro ⟨err, h⟩
  have hb : (openTunnel.operateTunnel defaultConfig
      [SelectCase.sshKeepAliveTimer (some keepAliveIoError)]).1 = LoopExit.blocked := by decide
  rw [hb] at h
  cases h

end Psiphon
